import Mathlib

/-!
Shallow embedding of the Multi-Framework Super-Agent Platform client
(src/App.tsx) together with the backend routing core that the
specification describes.  Pure functions of the TypeScript source are
translated to Lean functions; the API client together with browser
storage and the Redux store is modelled as an explicit state record
with state-passing operations.  Components that live in the backend
file src/backend.py, which is not among the sources, are modelled from
the specification and marked as such in their doc comments.
-/

namespace Agents

/-- Roles of the UserRole enum in src/App.tsx (lines 15-20). -/
inductive UserRole where
  | admin
  | analyst
  | user
  | service_account
deriving DecidableEq, Repr

/-- Priorities of the TaskPriority enum in src/App.tsx (lines 22-27). -/
inductive TaskPriority where
  | low
  | medium
  | high
  | urgent
deriving DecidableEq, Repr

/-- Engines of the ExecutionEngine enum in src/App.tsx (lines 29-33). -/
inductive ExecutionEngine where
  | direct_llm
  | crewai
  | autogen
deriving DecidableEq, Repr

/-- String values carried by the ExecutionEngine enum members in src/App.tsx. -/
def engineValue : ExecutionEngine → String
  | .direct_llm => "direct_llm"
  | .crewai => "crewai"
  | .autogen => "autogen"

/-- Rank table of ProtectedRoute in src/App.tsx (lines 339-344). -/
def roleHierarchy : UserRole → Nat
  | .admin => 4
  | .analyst => 3
  | .user => 2
  | .service_account => 1

/-- User record of src/App.tsx (lines 35-43); Date fields are modelled as Nat timestamps. -/
structure User where
  id : String
  username : String
  email : String
  role : UserRole
  isActive : Bool
  createdAt : Nat
  lastLogin : Option Nat
deriving DecidableEq, Repr

/-- Outcome of rendering ProtectedRoute: redirect to /login, the access-denied page, or the protected children. -/
inductive RouteOutcome where
  | redirectLogin
  | accessDenied
  | granted
deriving DecidableEq, Repr

/-- ProtectedRoute of src/App.tsx (lines 331-359): redirect when unauthenticated or no user, deny when a required role outranks the user's role, otherwise render the children. -/
def protectedRoute (isAuthenticated : Bool) (user : Option User)
    (requiredRole : Option UserRole) : RouteOutcome :=
  match isAuthenticated, user with
  | false, _ => .redirectLogin
  | true, none => .redirectLogin
  | true, some u =>
    match requiredRole with
    | none => .granted
    | some r =>
      if roleHierarchy u.role < roleHierarchy r then .accessDenied else .granted

/-- Concrete inactive administrator used to exercise the role gate. -/
def inactiveAdmin : User :=
  { id := "u1", username := "root", email := "root@example.com",
    role := .admin, isActive := false, createdAt := 0, lastLogin := none }

/-- Claim C1 counterexample: an authenticated but inactive administrator is granted access to a route requiring the user role, so authorization does not fail for every inactive identity. -/
theorem protectedRoute_ignores_isActive :
    inactiveAdmin.isActive = false ∧
    protectedRoute true (some inactiveAdmin) (some UserRole.user) = RouteOutcome.granted := by
  exact ⟨rfl, rfl⟩

/-- Claim C1 (amended): the role ranks realize the total order service_account < user < analyst < admin, and ProtectedRoute grants access iff the caller is authenticated and the user's rank is at least the required rank; the active flag is never consulted. -/
theorem protectedRoute_grant_iff :
    (roleHierarchy .service_account < roleHierarchy .user ∧
     roleHierarchy .user < roleHierarchy .analyst ∧
     roleHierarchy .analyst < roleHierarchy .admin) ∧
    ∀ (isAuth : Bool) (u : User) (r : UserRole),
      protectedRoute isAuth (some u) (some r) = RouteOutcome.granted ↔
        (isAuth = true ∧ roleHierarchy r ≤ roleHierarchy u.role) := by
  refine ⟨⟨by decide, by decide, by decide⟩, ?_⟩
  intro isAuth u r
  cases isAuth with
  | false => simp [protectedRoute]
  | true =>
    simp only [protectedRoute]
    split
    · next h => simp [Nat.not_le.mpr h]
    · next h => simp [Nat.not_lt.mp h]

/-- Claim C1 witness: a concrete active analyst is granted access to a route requiring the user role, via the amended theorem. -/
theorem protectedRoute_grant_iff_witness :
    protectedRoute true
      (some { id := "u2", username := "ana", email := "ana@example.com",
              role := .analyst, isActive := true, createdAt := 0, lastLogin := none })
      (some UserRole.user) = RouteOutcome.granted :=
  (protectedRoute_grant_iff.2 true
      { id := "u2", username := "ana", email := "ana@example.com",
        role := .analyst, isActive := true, createdAt := 0, lastLogin := none }
      UserRole.user).mpr ⟨rfl, by decide⟩

/-- Execution response record of src/App.tsx (lines 53-62); numbers are modelled as rationals and the Date as a Nat timestamp. -/
structure ExecutionResponse where
  executionId : String
  status : String
  result : Option String
  executionTime : Rat
  engine : ExecutionEngine
  tokensUsed : Nat
  costUsd : Rat
  timestamp : Nat
deriving DecidableEq, Repr

/-- Browser localStorage entries touched by src/App.tsx: the token entry and the theme entry. -/
structure LocalStorage where
  tokenEntry : Option String
  themeEntry : Option String
deriving DecidableEq, Repr

/-- Redux auth slice state, AuthState of src/App.tsx (lines 64-70). -/
structure AuthState where
  user : Option User
  token : Option String
  isAuthenticated : Bool
  isLoading : Bool
  error : Option String
deriving DecidableEq, Repr

/-- One HTTP request issued by the axios client, with the header the request interceptor attached. -/
structure ApiRequest where
  method : String
  path : String
  body : List (String × String)
  authHeader : Option String
deriving DecidableEq, Repr

/-- Full client-side state: the ApiClient in-memory token, browser storage, the Redux store slices, and the log of requests sent. -/
structure World where
  clientToken : Option String
  storage : LocalStorage
  reduxAuth : AuthState
  reduxExecutions : List ExecutionResponse
  reduxTheme : String
  sentRequests : List ApiRequest
deriving DecidableEq, Repr

/-- JavaScript string truthiness on string-or-null values: null and the empty string are falsy. -/
def truthy : Option String → Bool
  | none => false
  | some s => decide (s ≠ "")

/-- Request interceptor of ApiClient (src/App.tsx lines 89-94): the Authorization header is attached iff the in-memory token is truthy; localStorage is never read here. -/
def requestAuthHeader (token : Option String) : Option String :=
  match token with
  | none => none
  | some t => if t = "" then none else some ("Bearer " ++ t)

/-- Initial Redux auth state of src/App.tsx (lines 181-187): token from localStorage with or-null semantics, isAuthenticated by double-negation truthiness, user always null. -/
def initialAuthState (stored : Option String) : AuthState :=
  { user := none,
    token := if truthy stored then stored else none,
    isAuthenticated := truthy stored,
    isLoading := false,
    error := none }

/-- Client state right after a page load: a fresh ApiClient whose constructor leaves the in-memory token null, and the initial Redux store computed from persisted localStorage (src/App.tsx lines 76-108 and 180-199). -/
def freshWorld (st : LocalStorage) : World :=
  { clientToken := none,
    storage := st,
    reduxAuth := initialAuthState st.tokenEntry,
    reduxExecutions := [],
    reduxTheme := match st.themeEntry with
      | some t => if t = "" then "light" else t
      | none => "light",
    sentRequests := [] }

/-- ApiClient.setToken of src/App.tsx (lines 110-113): stores the token both in memory and in localStorage. -/
def setToken (t : String) (w : World) : World :=
  { w with clientToken := some t,
           storage := { w.storage with tokenEntry := some t } }

/-- ApiClient.getToken of src/App.tsx (lines 115-117): the in-memory token when truthy, else the localStorage fallback. -/
def getToken (w : World) : Option String :=
  if truthy w.clientToken then w.clientToken else w.storage.tokenEntry

/-- Server response to a successful login, the data of POST /auth/login. -/
structure LoginResponse where
  access_token : String
  user : User
deriving DecidableEq, Repr

/-- ApiClient.login of src/App.tsx (lines 119-123): posts username and password to /auth/login, then stores the returned access token via setToken. -/
def login (username password : String) (resp : LoginResponse) (w : World) : World :=
  let sent : ApiRequest :=
    { method := "POST", path := "/auth/login",
      body := [("username", username), ("password", password)],
      authHeader := requestAuthHeader w.clientToken }
  setToken resp.access_token { w with sentRequests := w.sentRequests ++ [sent] }

/-- ApiClient.logout of src/App.tsx (lines 125-128): nulls the in-memory token and removes the token entry from localStorage; nothing else changes and no request is sent. -/
def logout (w : World) : World :=
  { w with clientToken := none,
           storage := { w.storage with tokenEntry := none } }

/-- Response interceptor on a 401 of src/App.tsx (lines 97-107): the in-memory token is nulled; localStorage is left as is. -/
def handle401 (w : World) : World :=
  { w with clientToken := none }

/-- Claim C7: a login posts username and password to /auth/login, stores the returned access token in memory and in localStorage, and every subsequent request carries it as an Authorization Bearer header. -/
theorem login_stores_and_attaches_token :
    ∀ (u p : String) (resp : LoginResponse) (w : World),
      resp.access_token ≠ "" →
      (login u p resp w).clientToken = some resp.access_token ∧
      (login u p resp w).storage.tokenEntry = some resp.access_token ∧
      requestAuthHeader (login u p resp w).clientToken =
        some ("Bearer " ++ resp.access_token) ∧
      (login u p resp w).sentRequests = w.sentRequests ++
        [{ method := "POST", path := "/auth/login",
           body := [("username", u), ("password", p)],
           authHeader := requestAuthHeader w.clientToken }] := by
  intro u p resp w h
  refine ⟨rfl, rfl, ?_, rfl⟩
  simp [requestAuthHeader, login, setToken, h]

/-- Claim C7 witness: a concrete login with token abc123 stores the token and yields the Bearer abc123 header. -/
theorem login_stores_and_attaches_token_witness :
    (login "alice" "pw" { access_token := "abc123", user := inactiveAdmin }
        (freshWorld { tokenEntry := none, themeEntry := none })).clientToken =
      some "abc123" ∧
    requestAuthHeader
        (login "alice" "pw" { access_token := "abc123", user := inactiveAdmin }
          (freshWorld { tokenEntry := none, themeEntry := none })).clientToken =
      some ("Bearer " ++ "abc123") :=
  ⟨(login_stores_and_attaches_token "alice" "pw"
      { access_token := "abc123", user := inactiveAdmin }
      (freshWorld { tokenEntry := none, themeEntry := none }) (by decide)).1,
   (login_stores_and_attaches_token "alice" "pw"
      { access_token := "abc123", user := inactiveAdmin }
      (freshWorld { tokenEntry := none, themeEntry := none }) (by decide)).2.2.1⟩

/-- Claim C8: a non-empty stored token yields an initial auth state that is authenticated with a null user, while an absent or empty stored token yields an unauthenticated initial state. -/
theorem initialAuthState_from_storage :
    (∀ s : String, s ≠ "" →
      (initialAuthState (some s)).isAuthenticated = true ∧
      (initialAuthState (some s)).user = none ∧
      (initialAuthState (some s)).token = some s) ∧
    (initialAuthState none).isAuthenticated = false ∧
    (initialAuthState (some "")).isAuthenticated = false := by
  refine ⟨?_, rfl, by decide⟩
  intro s h
  refine ⟨?_, rfl, ?_⟩ <;> simp [initialAuthState, truthy, h]

/-- Claim C8 witness: the stored string stale-jwt is nonempty and produces an authenticated initial state with user null. -/
theorem initialAuthState_from_storage_witness :
    (initialAuthState (some "stale-jwt")).isAuthenticated = true ∧
    (initialAuthState (some "stale-jwt")).user = none :=
  ⟨(initialAuthState_from_storage.1 "stale-jwt" (by decide)).1,
   (initialAuthState_from_storage.1 "stale-jwt" (by decide)).2.1⟩

/-- Concrete client state whose in-memory token is the empty string. -/
def emptyTokenWorld : World :=
  { clientToken := some "",
    storage := { tokenEntry := none, themeEntry := none },
    reduxAuth := initialAuthState none,
    reduxExecutions := [],
    reduxTheme := "light",
    sentRequests := [] }

/-- Claim C9 counterexample: with an in-memory token that is non-null but empty, the interceptor attaches no Authorization header, refuting the claimed iff on non-nullness. -/
theorem requestAuthHeader_empty_token :
    emptyTokenWorld.clientToken ≠ none ∧
    requestAuthHeader emptyTokenWorld.clientToken = none := by
  exact ⟨by decide, by decide⟩

/-- Claim C9 (amended): the Authorization header is attached iff the in-memory token is non-null and non-empty by JavaScript truthiness; after a fresh page load the in-memory token is null whatever localStorage holds, so requests go out without credentials, and a 401 response nulls the in-memory token while leaving localStorage untouched. -/
theorem requestAuthHeader_iff_truthy :
    (∀ tok : Option String,
      (requestAuthHeader tok).isSome = true ↔ (tok ≠ none ∧ tok ≠ some "")) ∧
    (∀ t : String, t ≠ "" → requestAuthHeader (some t) = some ("Bearer " ++ t)) ∧
    (∀ st : LocalStorage,
      (freshWorld st).clientToken = none ∧
      requestAuthHeader (freshWorld st).clientToken = none) ∧
    (∀ w : World,
      (handle401 w).clientToken = none ∧
      requestAuthHeader (handle401 w).clientToken = none ∧
      (handle401 w).storage = w.storage) := by
  refine ⟨?_, ?_, fun st => ⟨rfl, rfl⟩, fun w => ⟨rfl, rfl, rfl⟩⟩
  · intro tok
    match tok with
    | none => simp [requestAuthHeader]
    | some t =>
      by_cases h : t = "" <;> simp [requestAuthHeader, h]
  · intro t h
    simp [requestAuthHeader, h]

/-- Claim C9 witness: a concrete nonempty token tok1 yields the Bearer tok1 header, and a fresh load over a storage that still holds tok1 sends no credentials. -/
theorem requestAuthHeader_iff_truthy_witness :
    requestAuthHeader (some "tok1") = some ("Bearer " ++ "tok1") ∧
    requestAuthHeader
      (freshWorld { tokenEntry := some "tok1", themeEntry := none }).clientToken = none :=
  ⟨requestAuthHeader_iff_truthy.2.1 "tok1" (by decide),
   (requestAuthHeader_iff_truthy.2.2.1 { tokenEntry := some "tok1", themeEntry := none }).2⟩

/-- Claim C10: logout nulls the in-memory token and removes the localStorage token entry, and changes nothing else: the theme entry, all Redux slices, and the request log are untouched, so no request is sent to the server. -/
theorem logout_frame :
    ∀ w : World,
      (logout w).clientToken = none ∧
      (logout w).storage.tokenEntry = none ∧
      (logout w).storage.themeEntry = w.storage.themeEntry ∧
      (logout w).reduxAuth = w.reduxAuth ∧
      (logout w).reduxExecutions = w.reduxExecutions ∧
      (logout w).reduxTheme = w.reduxTheme ∧
      (logout w).sentRequests = w.sentRequests := by
  intro w
  exact ⟨rfl, rfl, rfl, rfl, rfl, rfl, rfl⟩

/-- Execution-history visibility in Dashboard (src/App.tsx lines 541-573): the history table is rendered only when the logged-in user's role is exactly admin. -/
def showsExecutionHistory : Option User → Bool
  | none => false
  | some u => decide (u.role = UserRole.admin)

/-- Rows a Dashboard visitor is shown: the first 10 items of the executions store when the history table is rendered (executions.slice(0,10) in src/App.tsx line 559), nothing otherwise. -/
def displayedHistory (u : Option User) (items : List ExecutionResponse) : List ExecutionResponse :=
  if showsExecutionHistory u then items.take 10 else []

/-- Concrete active analyst used to exercise the Dashboard. -/
def analystUser : User :=
  { id := "u2", username := "ana", email := "ana@example.com",
    role := .analyst, isActive := true, createdAt := 0, lastLogin := none }

/-- Concrete execution record present in the store. -/
def sampleExecution : ExecutionResponse :=
  { executionId := "e1", status := "succeeded", result := some "done",
    executionTime := 2, engine := .direct_llm, tokensUsed := 100,
    costUsd := 1, timestamp := 0 }

/-- Claim C4 counterexample: an analyst holds at least the user role, yet the Dashboard renders no executions listing for them at all, even with a non-empty store. -/
theorem dashboard_hides_history_from_analyst :
    roleHierarchy .user ≤ roleHierarchy analystUser.role ∧
    showsExecutionHistory (some analystUser) = false ∧
    displayedHistory (some analystUser) [sampleExecution] = [] := by
  refine ⟨by decide, rfl, rfl⟩

/-- Claim C4 (amended): the Dashboard renders the execution-history table iff the identity's role is exactly admin; any non-admin identity, whatever its rank, is shown no executions listing, and an admin is shown the first 10 items of the executions store. -/
theorem displayedHistory_admin_only :
    ∀ (ou : Option User) (items : List ExecutionResponse),
      (showsExecutionHistory ou = true ↔ ∃ u, ou = some u ∧ u.role = UserRole.admin) ∧
      (∀ u, ou = some u → u.role ≠ UserRole.admin → displayedHistory ou items = []) ∧
      (∀ u, ou = some u → u.role = UserRole.admin →
        displayedHistory ou items = items.take 10) := by
  intro ou items
  refine ⟨?_, ?_, ?_⟩
  · match ou with
    | none => simp [showsExecutionHistory]
    | some u => simp [showsExecutionHistory]
  · intro u hu hr
    subst hu
    simp [displayedHistory, showsExecutionHistory, hr]
  · intro u hu hr
    subst hu
    simp [displayedHistory, showsExecutionHistory, hr]

/-- Claim C4 witness: a concrete admin is shown the sample execution, via the amended theorem. -/
theorem displayedHistory_admin_only_witness :
    displayedHistory
      (some { id := "u3", username := "adm", email := "adm@example.com",
              role := .admin, isActive := true, createdAt := 0, lastLogin := none })
      [sampleExecution] = [sampleExecution] :=
  (displayedHistory_admin_only
      (some { id := "u3", username := "adm", email := "adm@example.com",
              role := .admin, isActive := true, createdAt := 0, lastLogin := none })
      [sampleExecution]).2.2
    { id := "u3", username := "adm", email := "adm@example.com",
      role := .admin, isActive := true, createdAt := 0, lastLogin := none }
    rfl rfl

/-- Execution request record of src/App.tsx (lines 45-51); the context mapping is modelled as an association list and numbers as rationals. -/
structure ExecutionRequest where
  taskDescription : String
  priority : TaskPriority
  context : Option (List (String × String))
  maxTokens : Option Nat
  temperature : Option Rat
deriving DecidableEq, Repr

/-- Rank of the fixed priority order low < medium < high < urgent. -/
def priorityRank : TaskPriority → Nat
  | .low => 0
  | .medium => 1
  | .high => 2
  | .urgent => 3

/-- Modelled from the spec: the description-length bucket signal of the Task Complexity Scorer, whose code lives in src/backend.py and is not among the sources; one bucket per 500 characters, capped at 10. -/
def lengthBucket (n : Nat) : Nat := min (n / 500) 10

/-- Modelled from the spec: the context presence-and-size signal of the Task Complexity Scorer, capped at 5. -/
def contextSignal : Option (List (String × String)) → Nat
  | none => 0
  | some l => min l.length 5

/-- Modelled from the spec: the Task Complexity Scorer combines the normalized length, context and priority signals by a weighted sum and clamps the result to the bounded range 0-30. -/
def score (req : ExecutionRequest) : Nat :=
  min (lengthBucket req.taskDescription.length + contextSignal req.context
        + 2 * priorityRank req.priority) 30

/-- Claim C5: the complexity score is deterministic, and monotone non-decreasing both in description length and in the priority order, other fields held fixed. -/
theorem score_deterministic_monotone :
    (∀ r1 r2 : ExecutionRequest, r1 = r2 → score r1 = score r2) ∧
    (∀ (r : ExecutionRequest) (d1 d2 : String), d1.length ≤ d2.length →
      score { r with taskDescription := d1 } ≤ score { r with taskDescription := d2 }) ∧
    (∀ (r : ExecutionRequest) (p1 p2 : TaskPriority),
      priorityRank p1 ≤ priorityRank p2 →
      score { r with priority := p1 } ≤ score { r with priority := p2 }) := by
  refine ⟨fun r1 r2 h => by rw [h], ?_, ?_⟩
  · intro r d1 d2 h
    have hb : lengthBucket d1.length ≤ lengthBucket d2.length :=
      min_le_min (Nat.div_le_div_right h) le_rfl
    show min (lengthBucket d1.length + contextSignal r.context
              + 2 * priorityRank r.priority) 30 ≤
         min (lengthBucket d2.length + contextSignal r.context
              + 2 * priorityRank r.priority) 30
    exact min_le_min (by omega) le_rfl
  · intro r p1 p2 h
    show min (lengthBucket r.taskDescription.length + contextSignal r.context
              + 2 * priorityRank p1) 30 ≤
         min (lengthBucket r.taskDescription.length + contextSignal r.context
              + 2 * priorityRank p2) 30
    exact min_le_min (by omega) le_rfl

/-- Claim C5 witness: on concrete requests, a longer description scores at least as high, and urgent scores at least as high as low. -/
theorem score_deterministic_monotone_witness :
    score { taskDescription := "short task", priority := .medium,
            context := none, maxTokens := none, temperature := none } ≤
      score { taskDescription := "describe the quarterly report in detail",
              priority := .medium,
              context := none, maxTokens := none, temperature := none } ∧
    score { taskDescription := "short task", priority := .low,
            context := none, maxTokens := none, temperature := none } ≤
      score { taskDescription := "short task", priority := .urgent,
              context := none, maxTokens := none, temperature := none } :=
  ⟨score_deterministic_monotone.2.1
      { taskDescription := "short task", priority := .medium,
        context := none, maxTokens := none, temperature := none }
      "short task" "describe the quarterly report in detail" (by decide),
   score_deterministic_monotone.2.2
      { taskDescription := "short task", priority := .low,
        context := none, maxTokens := none, temperature := none }
      .low .urgent (by decide)⟩

/-- Modelled from the spec: per-engine estimate produced by the Resource and Cost Evaluator of src/backend.py, which is not among the sources; cost is in cents and latency in milliseconds. -/
structure EngineEstimate where
  available : Bool
  estimatedCost : Nat
  estimatedLatency : Nat
deriving DecidableEq, Repr

/-- Routing rationale attached to every decision: complexity, cost estimate and resource state. -/
structure Rationale where
  complexity : Nat
  costEstimate : Nat
  resourceState : List (ExecutionEngine × Bool)
deriving DecidableEq, Repr

/-- Routing decision: the selected engine together with its rationale. -/
structure RoutingDecision where
  engine : ExecutionEngine
  rationale : Rationale
deriving DecidableEq, Repr

/-- Routing failure of the Decision Engine. -/
inductive RoutingError where
  | noEngineAvailable
deriving DecidableEq, Repr

/-- Stable identifier order over engines used by the final tie-break. -/
def engineId : ExecutionEngine → Nat
  | .direct_llm => 0
  | .crewai => 1
  | .autogen => 2

/-- All candidate engines in identifier-ascending order. -/
def allEngines : List ExecutionEngine := [.direct_llm, .crewai, .autogen]

/-- Modelled from the spec: deterministic tie-break of the Routing Decision Engine, lower estimated cost first, then lower estimated latency, then engine identifier ascending. -/
def tieBreak (ev : ExecutionEngine → EngineEstimate) (a b : ExecutionEngine) : ExecutionEngine :=
  if (ev a).estimatedCost < (ev b).estimatedCost then a
  else if (ev b).estimatedCost < (ev a).estimatedCost then b
  else if (ev a).estimatedLatency < (ev b).estimatedLatency then a
  else if (ev b).estimatedLatency < (ev a).estimatedLatency then b
  else if engineId a ≤ engineId b then a else b

/-- Best engine of a candidate list under the tie-break order, none on an empty list. -/
def bestRemaining (ev : ExecutionEngine → EngineEstimate) :
    List ExecutionEngine → Option ExecutionEngine
  | [] => none
  | e :: es => some (es.foldl (tieBreak ev) e)

/-- Low complexity threshold of the routing policy, a tunable policy constant. -/
def lowThreshold : Nat := 5

/-- High complexity threshold of the routing policy, a tunable policy constant. -/
def highThreshold : Nat := 15

/-- Default budget in cents applied when a request carries no budget hint. -/
def defaultBudget : Nat := 500

/-- Modelled from the spec: the Routing Decision Engine of src/backend.py, which is not among the sources. It eliminates unavailable engines; on urgent priority or a score below the low threshold it prefers the lowest-latency single-pass direct engine; above the high threshold it prefers the team engine when its cost fits the budget; otherwise it prefers the dialogue engine; remaining choices fall back to the deterministic tie-break. -/
def routeDecide (c : Nat) (p : TaskPriority) (ev : ExecutionEngine → EngineEstimate) :
    Except RoutingError RoutingDecision :=
  let rem := allEngines.filter (fun e => (ev e).available)
  match bestRemaining ev rem with
  | none => Except.error RoutingError.noEngineAvailable
  | some fallback =>
    let chosen :=
      if p = TaskPriority.urgent ∨ c < lowThreshold then
        if (ev .direct_llm).available then ExecutionEngine.direct_llm else fallback
      else if highThreshold < c then
        if (ev .crewai).available && decide ((ev .crewai).estimatedCost ≤ defaultBudget) then
          ExecutionEngine.crewai
        else if (ev .autogen).available then ExecutionEngine.autogen else fallback
      else
        if (ev .autogen).available then ExecutionEngine.autogen else fallback
    Except.ok
      { engine := chosen,
        rationale :=
          { complexity := c,
            costEstimate := (ev chosen).estimatedCost,
            resourceState := allEngines.map (fun e => (e, (ev e).available)) } }

/-- Engine selected by a routing outcome, none on a routing failure. -/
def chosenEngine : Except RoutingError RoutingDecision → Option ExecutionEngine
  | Except.ok d => some d.engine
  | Except.error _ => none

/-- Claim C6: on urgent priority, whenever the direct engine is not marked unavailable, the Decision Engine selects the direct engine regardless of the complexity score. -/
theorem routeDecide_urgent_prefers_direct :
    ∀ (c : Nat) (ev : ExecutionEngine → EngineEstimate),
      (ev ExecutionEngine.direct_llm).available = true →
      chosenEngine (routeDecide c TaskPriority.urgent ev) =
        some ExecutionEngine.direct_llm := by
  intro c ev h
  simp [routeDecide, allEngines, List.filter, h, bestRemaining, chosenEngine]

/-- Evaluator output in which every engine is available at unit cost and latency. -/
def allAvailable : ExecutionEngine → EngineEstimate :=
  fun _ => { available := true, estimatedCost := 1, estimatedLatency := 1 }

/-- Claim C6 witness: with every engine available and a complexity score of 30, an urgent request is routed to the direct engine. -/
theorem routeDecide_urgent_prefers_direct_witness :
    chosenEngine (routeDecide 30 TaskPriority.urgent allAvailable) =
      some ExecutionEngine.direct_llm :=
  routeDecide_urgent_prefers_direct 30 allAvailable rfl

/-- Validation failures of the request boundary. -/
inductive ValidationError where
  | descriptionTooShort
  | descriptionTooLong
deriving DecidableEq, Repr

/-- Errors the execute endpoint can reject a request with. -/
inductive ApiError where
  | validation : ValidationError → ApiError
  | routing : RoutingError → ApiError
deriving DecidableEq, Repr

/-- HTTP status code of an execute-endpoint error: 422 for validation, 503 for no engine available. -/
def statusCode : ApiError → Nat
  | .validation _ => 422
  | .routing _ => 503

/-- Pipeline stages a request can reach. -/
inductive Phase where
  | validatePhase
  | scorePhase
  | decidePhase
  | dispatchPhase
deriving DecidableEq, Repr

/-- Modelled from the spec: the execute endpoint handler of src/backend.py, which is not among the sources; it validates description length bounds before any scoring, routing or dispatch, and the returned phase list records which pipeline stages ran. -/
def handleExecute (req : ExecutionRequest) (ev : ExecutionEngine → EngineEstimate) :
    Except ApiError RoutingDecision × List Phase :=
  if req.taskDescription.length < 10 then
    (Except.error (ApiError.validation ValidationError.descriptionTooShort),
     [Phase.validatePhase])
  else if 5000 < req.taskDescription.length then
    (Except.error (ApiError.validation ValidationError.descriptionTooLong),
     [Phase.validatePhase])
  else
    match routeDecide (score req) req.priority ev with
    | Except.error e =>
      (Except.error (ApiError.routing e),
       [Phase.validatePhase, Phase.scorePhase, Phase.decidePhase])
    | Except.ok d =>
      (Except.ok d,
       [Phase.validatePhase, Phase.scorePhase, Phase.decidePhase, Phase.dispatchPhase])

/-- Submit-button gate of ExecutionForm (src/App.tsx line 439): submission is enabled only when not loading and the description has at least 10 characters. -/
def submitEnabled (desc : String) (isLoading : Bool) : Bool :=
  !isLoading && decide (10 ≤ desc.length)

/-- Claim C3: a request whose description is shorter than 10 or longer than 5000 characters is rejected as a 422 validation error before any scoring, routing or dispatch phase runs, so no result is produced; the frontend form gate likewise refuses descriptions shorter than 10 characters. -/
theorem validation_rejects_before_engine :
    (∀ (req : ExecutionRequest) (ev : ExecutionEngine → EngineEstimate),
      req.taskDescription.length < 10 ∨ 5000 < req.taskDescription.length →
      ∃ v : ValidationError,
        (handleExecute req ev).1 = Except.error (ApiError.validation v) ∧
        statusCode (ApiError.validation v) = 422 ∧
        (handleExecute req ev).2 = [Phase.validatePhase] ∧
        Phase.scorePhase ∉ (handleExecute req ev).2 ∧
        Phase.decidePhase ∉ (handleExecute req ev).2 ∧
        Phase.dispatchPhase ∉ (handleExecute req ev).2) ∧
    (∀ (desc : String) (isLoading : Bool),
      submitEnabled desc isLoading = true → 10 ≤ desc.length) := by
  constructor
  · intro req ev h
    rcases h with h | h
    · refine ⟨ValidationError.descriptionTooShort, ?_, rfl, ?_, ?_, ?_, ?_⟩ <;>
        simp [handleExecute, h]
    · have h10 : ¬ req.taskDescription.length < 10 := by omega
      refine ⟨ValidationError.descriptionTooLong, ?_, rfl, ?_, ?_, ?_, ?_⟩ <;>
        simp [handleExecute, h, h10]
  · intro desc isLoading h
    simp only [submitEnabled, Bool.and_eq_true, decide_eq_true_eq] at h
    exact h.2

/-- Claim C3 witness: the five-character description tiny! is rejected with a 422 validation error, the pipeline stays in the validation phase, and the form gate refuses it. -/
theorem validation_rejects_before_engine_witness :
    (∃ v : ValidationError,
      (handleExecute
        { taskDescription := "tiny!", priority := .urgent,
          context := none, maxTokens := none, temperature := none } allAvailable).1 =
        Except.error (ApiError.validation v) ∧
      statusCode (ApiError.validation v) = 422 ∧
      (handleExecute
        { taskDescription := "tiny!", priority := .urgent,
          context := none, maxTokens := none, temperature := none } allAvailable).2 =
        [Phase.validatePhase] ∧
      Phase.scorePhase ∉ (handleExecute
        { taskDescription := "tiny!", priority := .urgent,
          context := none, maxTokens := none, temperature := none } allAvailable).2 ∧
      Phase.decidePhase ∉ (handleExecute
        { taskDescription := "tiny!", priority := .urgent,
          context := none, maxTokens := none, temperature := none } allAvailable).2 ∧
      Phase.dispatchPhase ∉ (handleExecute
        { taskDescription := "tiny!", priority := .urgent,
          context := none, maxTokens := none, temperature := none } allAvailable).2) :=
  validation_rejects_before_engine.1
    { taskDescription := "tiny!", priority := .urgent,
      context := none, maxTokens := none, temperature := none }
    allAvailable (Or.inl (by decide))

/-- Engine names used by the specification. Modelled from the spec: the RoutingDecision engine set with the abstract names direct, team and dialogue. -/
inductive SpecEngine where
  | direct
  | team
  | dialogue
deriving DecidableEq, Repr

/-- Correspondence between the code's ExecutionEngine enum and the spec's abstract engine names: direct_llm is the single-pass direct engine, crewai the multi-role team engine, autogen the iterative dialogue engine. -/
def toSpecEngine : ExecutionEngine → SpecEngine
  | .direct_llm => .direct
  | .crewai => .team
  | .autogen => .dialogue

/-- Claim C2: the engine type is the closed three-element set named direct, team and dialogue by the spec, the correspondence is a bijection, and every routing decision the Decision Engine produces carries an engine from this set. -/
theorem engine_closed_set :
    (∀ e : ExecutionEngine,
      (e = .direct_llm ∨ e = .crewai ∨ e = .autogen) ∧
      (toSpecEngine e = .direct ∨ toSpecEngine e = .team ∨ toSpecEngine e = .dialogue)) ∧
    Function.Bijective toSpecEngine ∧
    (∀ (c : Nat) (p : TaskPriority) (ev : ExecutionEngine → EngineEstimate)
        (d : RoutingDecision),
      routeDecide c p ev = Except.ok d →
      (d.engine = .direct_llm ∨ d.engine = .crewai ∨ d.engine = .autogen)) := by
  refine ⟨?_, ⟨?_, ?_⟩, ?_⟩
  · intro e
    cases e <;> simp [toSpecEngine]
  · intro a b hab
    cases a <;> cases b <;> simp [toSpecEngine] at hab ⊢
  · intro s
    cases s with
    | direct => exact ⟨.direct_llm, rfl⟩
    | team => exact ⟨.crewai, rfl⟩
    | dialogue => exact ⟨.autogen, rfl⟩
  · intro c p ev d _
    cases d.engine <;> simp

/-- Claim C2 witness: on a concrete successful routing the selected engine lies in the closed set. -/
theorem engine_closed_set_witness :
    (routeDecide 30 TaskPriority.urgent allAvailable =
      Except.ok
        { engine := ExecutionEngine.direct_llm,
          rationale :=
            { complexity := 30, costEstimate := 1,
              resourceState := [(.direct_llm, true), (.crewai, true), (.autogen, true)] } }) ∧
    ({ engine := ExecutionEngine.direct_llm,
       rationale :=
         { complexity := 30, costEstimate := 1,
           resourceState := [(.direct_llm, true), (.crewai, true), (.autogen, true)] } :
       RoutingDecision }.engine = ExecutionEngine.direct_llm ∨
     ({ engine := ExecutionEngine.direct_llm,
        rationale :=
          { complexity := 30, costEstimate := 1,
            resourceState := [(.direct_llm, true), (.crewai, true), (.autogen, true)] } :
        RoutingDecision }.engine = ExecutionEngine.crewai ∨
      ({ engine := ExecutionEngine.direct_llm,
         rationale :=
           { complexity := 30, costEstimate := 1,
             resourceState := [(.direct_llm, true), (.crewai, true), (.autogen, true)] } :
         RoutingDecision }.engine = ExecutionEngine.autogen))) :=
  ⟨rfl,
   engine_closed_set.2.2 30 TaskPriority.urgent allAvailable
     { engine := ExecutionEngine.direct_llm,
       rationale :=
         { complexity := 30, costEstimate := 1,
           resourceState := [(.direct_llm, true), (.crewai, true), (.autogen, true)] } }
     rfl⟩

end Agents
